import Mathlib

/-!
Shallow embedding of the identity and session core of CommitSpy-Core
(src/services/users.service.js, second revision: the one with the
deductWallet and registerwithtoken actions).  Pure data is translated
directly; the asynchronous store and provider calls are made explicit
parameters; machine behaviour of the external libraries (jsonwebtoken,
bcryptjs, crypto, the mongoose adapter) is modelled by small executable
stand-ins that keep exactly the structure the service code observes.
-/

namespace CommitSpy

/-- Payload of a JSON web token as the service signs and reads it:
jwt.sign in generateJWT stores id, username and exp; resolveToken reads
decoded.id.  Fields are optional because an arbitrary verified token need
not carry them. -/
structure JwtPayload where
  id : Option Int
  username : Option String
  exp : Option Int
deriving DecidableEq

/-- A signed token: the payload together with the key it was signed with.
Models the jsonwebtoken pair jwt.sign / jwt.verify: verification succeeds
exactly when the verifying secret equals the signing key. -/
structure Jwt where
  payload : JwtPayload
  key : String
deriving DecidableEq

/-- Errors jwt.verify can reject with that this service ever sees:
JsonWebTokenError (bad signature) and TokenExpiredError. -/
inductive JwtError where
  | invalidSignature
  | tokenExpired
deriving DecidableEq

/-- jwt.verify(token, secret): signature is checked first; then, when the
payload carries an exp claim, the token is expired when exp is not in the
future. -/
def jwtVerify (t : Jwt) (secret : String) (now : Int) : Except JwtError JwtPayload :=
  if t.key = secret then
    match t.payload.exp with
    | some e => if e ≤ now then .error .tokenExpired else .ok t.payload
    | none => .ok t.payload
  else .error .invalidSignature

/-- A JavaScript value as it occurs in the objects this service returns:
strings, numbers, null, and attached token objects. -/
inductive JVal where
  | str : String → JVal
  | num : Int → JVal
  | null : JVal
  | tok : Jwt → JVal
deriving DecidableEq

/-- A JavaScript object, as an insertion-ordered association list. -/
abbrev JObj := List (String × JVal)

/-- Property read obj[k]. -/
def jGet (o : JObj) (k : String) : Option JVal :=
  (List.find? (fun kv => decide (kv.1 = k)) o).map (fun kv => kv.2)

/-- Whether the object has property k. -/
def jHasKey (o : JObj) (k : String) : Bool :=
  List.any o (fun kv => decide (kv.1 = k))

/-- Property write obj[k] = v: replaces the value in place when the key is
present, appends otherwise (JavaScript insertion order). -/
def jSet (o : JObj) (k : String) (v : JVal) : JObj :=
  if jHasKey o k then
    List.map (fun kv => if kv.1 = k then (k, v) else kv) o
  else
    o ++ [(k, v)]

/-- JavaScript truthiness test for the values that reach the two
short-circuit points of the service (user.avatar and the token argument):
absent, null, the empty string and 0 are falsy. -/
def isFalsy : Option JVal → Bool
  | none => true
  | some .null => true
  | some (.str s) => decide (s = "")
  | some (.num n) => decide (n = 0)
  | some (.tok _) => false

/-- Modelled stand-in for the crypto md5 hex digest used only to derive
gravatar URLs: an injective deterministic tag; no claim depends on the
digest value itself. -/
def md5hex (s : String) : String := "md5." ++ s

/-- Modelled stand-in for bcrypt.hashSync (external library): a
deterministic one-way tag whose only property used by the service is that
compare succeeds exactly against the hash of the same plaintext. -/
def bcryptHash (pw : String) : String := "bcrypt." ++ pw

/-- Modelled stand-in for bcrypt.compare. -/
def bcryptCompare (pw hash : String) : Bool := decide (bcryptHash pw = hash)

/-- The gravatar placeholder URL the transformer derives from the email. -/
def gravatarUrl (email : String) : String :=
  "https://www.gravatar.com/avatar/" ++ md5hex email ++ "?d=robohash"

/-- Modelled stand-in for the fastest-validator email shape check; the
claims only need some candidates that pass and some that fail. -/
def isEmailShape (s : String) : Bool := List.any s.data (fun c => decide (c = '@'))

/-- A stored user record, with the schema paths the service reads and
writes.  Modelled from the spec for the parts whose schema file
(models/user.model.js) is not under src: wallet is the numeric balance
(defaulting to 0 on creation), createdAt and updatedAt are timestamps. -/
structure Account where
  _id : Int
  username : String
  git_id : String
  email : String
  password : String
  avatar : Option String
  twitter : Option String
  wallet : Int
  createdAt : Option Int
  updatedAt : Option Int
deriving DecidableEq

/-- The raw mongoose document for an account, as a JavaScript object:
every populated schema path is present, including the password hash. -/
def accountToDoc (a : Account) : JObj :=
  [("_id", .num a._id), ("username", .str a.username), ("git_id", .str a.git_id),
   ("email", .str a.email), ("password", .str a.password)]
  ++ (match a.avatar with | some s => [("avatar", JVal.str s)] | none => [])
  ++ (match a.twitter with | some s => [("twitter", JVal.str s)] | none => [])
  ++ [("wallet", .num a.wallet)]
  ++ (match a.createdAt with | some n => [("createdAt", JVal.num n)] | none => [])
  ++ (match a.updatedAt with | some n => [("updatedAt", JVal.num n)] | none => [])

/-- The record store reached through the mongoose adapter: the stored
accounts plus the next id the store will assign on insert. -/
structure Store where
  accounts : List Account
  nextId : Int
deriving DecidableEq

/-- adapter.findOne on a username filter. -/
def findOneByUsername (st : Store) (u : String) : Option Account :=
  List.find? (fun a => decide (a.username = u)) st.accounts

/-- adapter.findOne on an email filter. -/
def findOneByEmail (st : Store) (e : String) : Option Account :=
  List.find? (fun a => decide (a.email = e)) st.accounts

/-- adapter.findOne on a git_id filter. -/
def findOneByGitId (st : Store) (g : String) : Option Account :=
  List.find? (fun a => decide (a.git_id = g)) st.accounts

/-- The moleculer-db getById method: adapter.findById, resolving the raw
record, or null when no record has the id.  No field projection happens
here. -/
def getById (st : Store) (i : Int) : Option Account :=
  List.find? (fun a => decide (a._id = i)) st.accounts

/-- settings.fields: the public field allow-list. -/
def userFields : List String := ["_id", "username", "git_id", "email", "twitter", "avatar"]

/-- The moleculer-db transformDocuments projection with empty call params:
keeps exactly the properties named in settings.fields. -/
def transformDocuments (doc : JObj) : JObj :=
  List.filter (fun kv => decide (kv.1 ∈ userFields)) doc

/-- The value transformEntity returns: the (possibly null) user object
wrapped as a one-property object. -/
structure Wrapped where
  user : Option JObj
deriving DecidableEq

/-- generateJWT: signs id, username and an expiry 60 days ahead with the
service secret.  The calendar arithmetic of setDate is modelled as a flat
60 days of seconds, matching the spec reading of the expiry. -/
def generateJWT (user : JObj) (now : Int) (secret : String) : Jwt :=
  { payload :=
      { id := match jGet user "_id" with | some (.num n) => some n | _ => none
      , username := match jGet user "username" with | some (.str s) => some s | _ => none
      , exp := some (now + 60 * 86400) }
  , key := secret }

/-- transformEntity(user, withToken, token): on a non-null user, fills a
missing avatar with the gravatar URL derived from the email, and when
withToken is set attaches the caller-supplied token when present, else a
token minted by generateJWT; returns the wrapped user. -/
def transformEntity (user : Option JObj) (withToken : Bool) (token : Option Jwt)
    (now : Int) (secret : String) : Wrapped :=
  match user with
  | none => ⟨none⟩
  | some u =>
    let email := match jGet u "email" with | some (.str s) => s | _ => ""
    let u1 := if isFalsy (jGet u "avatar") then jSet u "avatar" (.str (gravatarUrl email)) else u
    let u2 := if withToken then jSet u1 "token" (.tok (token.getD (generateJWT u1 now secret))) else u1
    ⟨some u2⟩

/-- A field detail entry of a MoleculerClientError. -/
structure FieldDetail where
  field : String
  message : String
deriving DecidableEq

/-- MoleculerClientError(message, code, type, data). -/
structure MCError where
  message : String
  code : Int
  typ : String
  data : List FieldDetail
deriving DecidableEq

/-- The error thrown by validateEntity on a malformed candidate. -/
def validationError : MCError :=
  ⟨"Parameters validation error!", 422, "VALIDATION_ERROR", []⟩

/-- The username uniqueness conflict thrown by create and updateMyself. -/
def usernameExistsError : MCError :=
  ⟨"Username is exist!", 422, "", [⟨"username", "is exist"⟩]⟩

/-- The email uniqueness conflict thrown by create and updateMyself. -/
def emailExistsError : MCError :=
  ⟨"Email is exist!", 422, "", [⟨"email", "is exist"⟩]⟩

/-- A registration candidate, shaped by settings.entityValidator. -/
structure Candidate where
  username : String
  git_id : String
  password : String
  email : String
  avatar : Option String
  twitter : Option String
deriving DecidableEq

/-- validateEntity against settings.entityValidator: username and git_id
of length at least 2, password of length at least 6, email of email
shape; avatar and twitter optional and unconstrained. -/
def validateEntity (e : Candidate) : Bool :=
  decide (2 ≤ e.username.length) && decide (2 ≤ e.git_id.length)
    && decide (6 ≤ e.password.length) && isEmailShape e.email

/-- The record the create action inserts: the candidate with the password
replaced by its hash, createdAt stamped, and the id the store assigns. -/
def createdAccount (st : Store) (e : Candidate) (now : Int) : Account :=
  { _id := st.nextId, username := e.username, git_id := e.git_id, email := e.email
  , password := bcryptHash e.password, avatar := e.avatar, twitter := e.twitter
  , wallet := 0, createdAt := some now, updatedAt := none }

/-- The create action (POST /register): validate, check username then
email uniqueness, hash the password, stamp createdAt, insert, and return
the transformed profile with a token (the meta token of the call when
present).  Returns the result together with the resulting store: on any
failure nothing is inserted. -/
def create (st : Store) (e : Candidate) (mt : Option Jwt) (now : Int) (secret : String) :
    Except MCError Wrapped × Store :=
  if ¬ validateEntity e then (.error validationError, st)
  else if e.username ≠ "" ∧ (findOneByUsername st e.username).isSome then
    (.error usernameExistsError, st)
  else if e.email ≠ "" ∧ (findOneByEmail st e.email).isSome then
    (.error emailExistsError, st)
  else
    (.ok (transformEntity (some (transformDocuments (accountToDoc (createdAccount st e now))))
          true mt now secret),
     ⟨st.accounts ++ [createdAccount st e now], st.nextId + 1⟩)

/-- The not-found branch of the login action. -/
def notFoundLoginError : MCError :=
  ⟨"Email or password is invalid!", 422, "", [⟨"email", "is not found"⟩]⟩

/-- The wrong-password branch of the login action. -/
def wrongPasswordError : MCError :=
  ⟨"Wrong password!", 422, "", [⟨"email", "is not found"⟩]⟩

/-- The login action (POST /login): find by email, compare the password
against the stored hash, and return the transformed profile with a token. -/
def login (st : Store) (email password : String) (mt : Option Jwt) (now : Int) (secret : String) :
    Except MCError Wrapped :=
  match findOneByEmail st email with
  | none => .error notFoundLoginError
  | some user =>
    if bcryptCompare password user.password then
      .ok (transformEntity (some (transformDocuments (accountToDoc user))) true mt now secret)
    else .error wrongPasswordError

/-- The error thrown by the me action on a missing account. -/
def meNotFoundError : MCError := ⟨"User not found!", 400, "", []⟩

/-- The me action (GET /me): getById on the authenticated id, then the
transform pipeline. -/
def me (st : Store) (selfId : Int) (mt : Option Jwt) (now : Int) (secret : String) :
    Except MCError Wrapped :=
  match getById st selfId with
  | none => .error meNotFoundError
  | some user =>
    .ok (transformEntity (some (transformDocuments (accountToDoc user))) true mt now secret)

/-- The partial-update payload of updateMyself, shaped by its params
schema: every field optional. -/
structure Patch where
  username : Option String
  password : Option String
  email : Option String
  avatar : Option String
  twitter : Option String
deriving DecidableEq

/-- The updateMyself username pre-check: a truthy username in the patch
that belongs to a different account. -/
def usernameTakenByOther (st : Store) (selfId : Int) : Option String → Bool
  | none => false
  | some u =>
    if u = "" then false
    else
      match findOneByUsername st u with
      | some f => decide (f._id ≠ selfId)
      | none => false

/-- The updateMyself email pre-check, analogous. -/
def emailTakenByOther (st : Store) (selfId : Int) : Option String → Bool
  | none => false
  | some e =>
    if e = "" then false
    else
      match findOneByEmail st e with
      | some f => decide (f._id ≠ selfId)
      | none => false

/-- The effect of the $set update built by updateMyself on a record: the
supplied fields overwrite, updatedAt is stamped.  Note the source $sets
the patch password verbatim, without hashing. -/
def applyPatch (a : Account) (p : Patch) (now : Int) : Account :=
  { a with
    username := p.username.getD a.username
  , password := p.password.getD a.password
  , email := p.email.getD a.email
  , avatar := match p.avatar with | some s => some s | none => a.avatar
  , twitter := match p.twitter with | some s => some s | none => a.twitter
  , updatedAt := some now }

/-- The updateMyself action (PUT /me): uniqueness pre-checks excluding the
caller, then updateById with a $set, then the transform pipeline.  When
the authenticated id no longer exists, findByIdAndUpdate resolves null
and the transform wraps a null user. -/
def updateMyself (st : Store) (selfId : Int) (p : Patch) (mt : Option Jwt)
    (now : Int) (secret : String) : Except MCError Wrapped × Store :=
  if usernameTakenByOther st selfId p.username then (.error usernameExistsError, st)
  else if emailTakenByOther st selfId p.email then (.error emailExistsError, st)
  else
    match getById st selfId with
    | some a =>
      (.ok (transformEntity (some (transformDocuments (accountToDoc (applyPatch a p now))))
            true mt now secret),
       ⟨List.map (fun b => if b._id = selfId then applyPatch a p now else b) st.accounts,
        st.nextId⟩)
    | none => (.ok (transformEntity none true mt now secret), st)

/-- The error thrown by getbygitID on a missing account. -/
def gitNotFoundError : MCError := ⟨"User not found!", 404, "", []⟩

/-- The getbygitID action: findOne on git_id, then the field projection
only (no token attached). -/
def getbygitID (st : Store) (gid : String) : Except MCError JObj :=
  match findOneByGitId st gid with
  | none => .error gitNotFoundError
  | some user => .ok (transformDocuments (accountToDoc user))

/-- The resolveToken handler: jwt.verify against the service secret (a
rejection propagates to the caller), then, only when the decoded payload
carries a truthy id, getById on it; the raw record (or null) is returned
with no field projection.  The second component records the ids looked up
in the store during the call. -/
def resolveToken (st : Store) (secret : String) (now : Int) (t : Jwt) :
    Except JwtError (Option JObj) × List Int :=
  match jwtVerify t secret now with
  | .error e => (.error e, [])
  | .ok decoded =>
    match decoded.id with
    | some i =>
      if i = 0 then (.ok none, [])
      else (.ok ((getById st i).map accountToDoc), [i])
    | none => (.ok none, [])

/-- An entry of the action cache of resolveToken: keyed by the exact
token parameter, holding the cached handler result and its store time. -/
structure CacheEntry where
  key : Jwt
  value : Option JObj
  storedAt : Int
deriving DecidableEq

/-- The cache ttl of the resolveToken action: one hour. -/
def cacheTTL : Int := 60 * 60

/-- Cache read: a hit needs a live entry (stored within the ttl) for the
exact token, holding non-null content; a cached null never
short-circuits. -/
def cacheLookup (cache : List CacheEntry) (t : Jwt) (now : Int) : Option JObj :=
  match List.find? (fun en => decide (en.key = t) && decide (now < en.storedAt + cacheTTL)) cache with
  | some en => en.value
  | none => none

/-- resolveToken as called through the broker with its action cache: a
live cache hit is returned without invoking the handler at all; on a miss
the handler runs and a successful result is stored under the token for
the ttl.  A rejection is not cached. -/
def cachedResolveToken (cache : List CacheEntry) (st : Store) (secret : String)
    (now : Int) (t : Jwt) : Except JwtError (Option JObj) × List CacheEntry :=
  match cacheLookup cache t now with
  | some v => (.ok (some v), cache)
  | none =>
    match resolveToken st secret now t with
    | (.ok v, _) => (.ok v, ⟨t, v, now⟩ :: cache)
    | (.error e, _) => (.error e, cache)

/-- A JavaScript promise, by its eventual outcome: resolution or
rejection. -/
structure JsPromise (α : Type) where
  outcome : Except String α

/-- What the caller of the deductWallet action can observe as a failure:
either a raw promise rejection that was never caught, or a thrown
MoleculerClientError. -/
inductive CallerError where
  | raw : String → CallerError
  | mc : MCError → CallerError
deriving DecidableEq

/-- The error the catch clause of deductWallet would throw. -/
def internalError : MCError :=
  ⟨"Internal Error!", 500, "", [⟨"Failure", " Internal Failure"⟩]⟩

/-- One store operation issued by a handler, as seen at the adapter. -/
inductive StoreOp where
  | findOp : Int → StoreOp
  | updateInc : Int → String → Int → StoreOp
deriving DecidableEq

/-- adapter.updateById with a $inc modifier on wallet: when the store is
reachable, a single atomic increment of the one field on the matching
record, resolving the updated record, or null when no record has the id
(findByIdAndUpdate does not reject on a missing id); when the store is
unreachable the returned promise rejects.  No failure is ever raised
synchronously: it always lands in the returned promise. -/
def adapterUpdateByIdInc (healthy : Bool) (st : Store) (i : Int) (delta : Int) :
    JsPromise (Store × Option Account) :=
  if healthy then
    match getById st i with
    | some a =>
      ⟨.ok (⟨List.map (fun b => if b._id = i then { b with wallet := b.wallet + delta } else b)
              st.accounts, st.nextId⟩,
            some { a with wallet := a.wallet + delta })⟩
    | none => ⟨.ok (st, none)⟩
  else ⟨.error "store unreachable"⟩

/-- The synchronous phase of the try block of deductWallet: it evaluates
the adapter call, which starts the update and returns its promise without
throwing, and returns that promise un-awaited.  Because no sub-expression
of the block can throw synchronously, this phase always succeeds, so the
catch clause of the action is unreachable. -/
def deductWalletTry (healthy : Bool) (st : Store) (payloadId cost : Int) :
    Except MCError (JsPromise (Store × Option Account)) :=
  .ok (adapterUpdateByIdInc healthy st payloadId (-cost))

/-- The deductWallet action: the try block yields the un-awaited promise
of updateById(payload._id, $inc wallet by -payload.cost); a synchronous
throw (which cannot occur) would be re-signalled as internalError by the
catch clause; the promise itself is returned to the framework, so its
rejection reaches the caller raw.  The second component lists the store
operations the call issues. -/
def deductWallet (healthy : Bool) (st : Store) (payloadId cost : Int) :
    Except CallerError (Store × Option Account) × List StoreOp :=
  let ops := [StoreOp.updateInc payloadId "wallet" (-cost)]
  match deductWalletTry healthy st payloadId cost with
  | .ok p =>
    match p.outcome with
    | .ok v => (.ok v, ops)
    | .error m => (.error (.raw m), ops)
  | .error _ => (.error (.mc internalError), ops)

/-- The profile the provider endpoint resolves for an access token. -/
structure ProviderProfile where
  id : Int
  name : String
  avatar_url : Option String
  twitter_username : Option String
deriving DecidableEq

/-- The error thrown by the catch-all of registerwithtoken. -/
def badDetailsError : MCError := ⟨"bad details!", 422, "", []⟩

/-- How registerwithtoken maps the provider profile and the caller
params into the registration candidate it delegates. -/
def mapProviderProfile (data : ProviderProfile) (password email : String) : Candidate :=
  { username := data.name, git_id := toString data.id, password := password
  , email := email, avatar := data.avatar_url, twitter := data.twitter_username }

/-- The registerwithtoken action (POST /regtoken): fetch the provider
profile, map it to a candidate, and delegate to the create action.  The
whole body sits in one try/catch whose catch clause throws the generic
bad-details error, so every failure of the provider call and every
failure of the delegated create, conflicts included, is replaced by it. -/
def registerwithtoken (providerResult : Except String ProviderProfile) (st : Store)
    (password email : String) (mt : Option Jwt) (now : Int) (secret : String) :
    Except MCError Wrapped × Store :=
  match providerResult with
  | .error _ => (.error badDetailsError, st)
  | .ok data =>
    match create st (mapProviderProfile data password email) mt now secret with
    | (.ok a, st2) => (.ok a, st2)
    | (.error _, st2) => (.error badDetailsError, st2)

/-- A password-free wrapped profile: whenever the wrapper holds a user
object, that object has no password property. -/
def pwFreeW (w : Wrapped) : Prop :=
  ∀ u, w.user = some u → jHasKey u "password" = false

/-- Whether a resolveToken outcome is the expired-token rejection. -/
def isExpiredErr : Except JwtError (Option JObj) → Bool
  | .error .tokenExpired => true
  | _ => false

/-- Whether a resolveToken outcome is a rejection at all. -/
def isJwtErr : Except JwtError (Option JObj) → Bool
  | .error _ => true
  | _ => false

/-- Whether a deductWallet outcome is a thrown MoleculerClientError. -/
def isThrownMcError : Except CallerError (Store × Option Account) → Bool
  | .error (.mc _) => true
  | _ => false

/-- The token property of the profile a successful create returns, when
one is attached. -/
def createdToken (st : Store) (e : Candidate) (mt : Option Jwt) (now : Int) (secret : String) :
    Option Jwt :=
  match (create st e mt now secret).1 with
  | .ok w =>
    match w.user with
    | some u => match jGet u "token" with | some (.tok t) => some t | _ => none
    | none => none
  | .error _ => none

/-- A sample account used by the concrete instances below. -/
def demoAcc : Account :=
  { _id := 1, username := "alice", git_id := "g1", email := "a@x.com"
  , password := bcryptHash "secret1", avatar := none, twitter := none
  , wallet := 0, createdAt := some 0, updatedAt := none }

/-- A sample store holding exactly the sample account. -/
def demoStore : Store := ⟨[demoAcc], 2⟩

/-- A valid unexpired token for the sample account under secret "s". -/
def demoToken : Jwt := ⟨⟨some 1, some "alice", some 1000⟩, "s"⟩

/-- A token for the sample account whose expiry 100 lies before the query
times used below. -/
def shortToken : Jwt := ⟨⟨some 1, some "alice", some 100⟩, "s"⟩

/-- A cache entry for shortToken, stored at time 50 from a resolution
that succeeded while the token was still live. -/
def shortEntry : CacheEntry := ⟨shortToken, some (accountToDoc demoAcc), 50⟩

/-- A valid unexpired token under secret "s" whose embedded id 5 matches
no stored account. -/
def ghostToken : Jwt := ⟨⟨some 5, some "ghost", some 1000⟩, "s"⟩

/-- A valid unexpired token under secret "s" whose payload has no id. -/
def noIdToken : Jwt := ⟨⟨none, some "noid", some 1000⟩, "s"⟩

/-- A candidate clashing with the sample account on both username and
email. -/
def bothClashCand : Candidate := ⟨"alice", "g9", "secret9", "a@x.com", none, none⟩

/-- A candidate clashing with the sample account on the username only. -/
def usernameClashCand : Candidate := ⟨"alice", "g2", "secret2", "b@y.com", none, none⟩

/-- A fresh valid candidate clashing with nothing in the sample store. -/
def freshCand : Candidate := ⟨"bob", "g8", "secret8", "bob@x.com", none, none⟩

/-- A provider profile whose display name clashes with the sample
account (the two-digit id keeps the mapped git_id structurally valid). -/
def clashProfile : ProviderProfile := ⟨77, "alice", none, none⟩

/-- A session token a caller might carry in meta while registering:
foreign key, odd expiry, id of another account. -/
def sessionToken : Jwt := ⟨⟨some 999, some "zed", some 42⟩, "other"⟩


/-! Helper lemmas about the object operations and the transform pipeline. -/

theorem any_key_map_update (o : JObj) (k : String) (v : JVal) (k' : String) :
    List.any (List.map (fun kv => if kv.1 = k then (k, v) else kv) o)
      (fun kv => decide (kv.1 = k'))
      = List.any o (fun kv => decide (kv.1 = k')) := by
  induction o with
  | nil => rfl
  | cons hd tl ih =>
    by_cases hk : hd.1 = k
    · simp [hk, ih]
    · simp [hk, ih]

theorem jHasKey_jSet_ne (o : JObj) (k : String) (v : JVal) (k' : String) (h : k' ≠ k) :
    jHasKey (jSet o k v) k' = jHasKey o k' := by
  unfold jSet
  by_cases hk : jHasKey o k = true
  · rw [if_pos hk]
    exact any_key_map_update o k v k'
  · rw [if_neg hk]
    simp [jHasKey, List.any_append, Ne.symm h]

theorem find_key_map_update (o : JObj) (k : String) (v : JVal) (k' : String) (h : k' ≠ k) :
    List.find? (fun kv => decide (kv.1 = k'))
        (List.map (fun kv => if kv.1 = k then (k, v) else kv) o)
      = List.find? (fun kv => decide (kv.1 = k')) o := by
  induction o with
  | nil => rfl
  | cons hd tl ih =>
    by_cases hk : hd.1 = k
    · simp [List.find?_cons, hk, Ne.symm h, ih]
    · by_cases hm : hd.1 = k'
      · have hhd : (if hd.1 = k then (k, v) else hd) = hd := if_neg hk
        rw [List.map_cons, List.find?_cons, List.find?_cons, hhd]
        simp [hm]
      · simp [List.find?_cons, hk, hm, ih]

theorem find_none_of_hasKey_false (o : JObj) (k : String) (h : jHasKey o k = false) :
    List.find? (fun kv => decide (kv.1 = k)) o = none := by
  rw [List.find?_eq_none]
  intro x hx
  have hall := List.any_eq_false.mp h
  intro hpx
  exact absurd hpx (by simpa using hall x hx)

theorem find_key_map_update_self (o : JObj) (k : String) (v : JVal) (h : jHasKey o k = true) :
    List.find? (fun kv => decide (kv.1 = k))
        (List.map (fun kv => if kv.1 = k then (k, v) else kv) o)
      = some (k, v) := by
  induction o with
  | nil => simp [jHasKey] at h
  | cons hd tl ih =>
    by_cases hk : hd.1 = k
    · simp [List.find?_cons, hk]
    · have h' : jHasKey tl k = true := by
        have hh := h
        simp [jHasKey, hk] at hh
        simpa [jHasKey] using hh
      simp [List.find?_cons, hk, ih h']

theorem jGet_jSet_ne (o : JObj) (k : String) (v : JVal) (k' : String) (h : k' ≠ k) :
    jGet (jSet o k v) k' = jGet o k' := by
  unfold jSet
  by_cases hk : jHasKey o k = true
  · rw [if_pos hk]
    unfold jGet
    rw [find_key_map_update o k v k' h]
  · rw [if_neg hk]
    unfold jGet
    rw [List.find?_append]
    have h1 : (List.find? (fun kv => decide (kv.1 = k')) [(k, v)]) = none := by
      simp [Ne.symm h]
    rw [h1]
    cases List.find? (fun kv => decide (kv.1 = k')) o <;> rfl

theorem jGet_jSet_self (o : JObj) (k : String) (v : JVal) :
    jGet (jSet o k v) k = some v := by
  unfold jSet
  by_cases hk : jHasKey o k = true
  · rw [if_pos hk]
    unfold jGet
    rw [find_key_map_update_self o k v hk]
    rfl
  · rw [if_neg hk]
    unfold jGet
    rw [List.find?_append, find_none_of_hasKey_false o k (by simpa using hk)]
    simp [List.find?_cons]

theorem transformDocuments_no_password (d : JObj) :
    jHasKey (transformDocuments d) "password" = false := by
  unfold transformDocuments jHasKey
  rw [List.any_eq_false]
  intro kv hkv
  have hmem := List.of_mem_filter hkv
  have hin : kv.1 ∈ userFields := of_decide_eq_true hmem
  intro hp
  have heq : kv.1 = "password" := of_decide_eq_true hp
  rw [heq] at hin
  simp [userFields] at hin

theorem pwFree_transform (d : JObj) (wt : Bool) (tok : Option Jwt) (now : Int) (secret : String) :
    pwFreeW (transformEntity (some (transformDocuments d)) wt tok now secret) := by
  intro u hu
  unfold transformEntity at hu
  simp only at hu
  injection hu with hu
  subst hu
  have h0 : jHasKey (transformDocuments d) "password" = false := transformDocuments_no_password d
  have h1 : ∀ o : JObj, jHasKey o "password" = false →
      jHasKey (if isFalsy (jGet o "avatar") then
        jSet o "avatar" (.str (gravatarUrl
          (match jGet o "email" with | some (.str s) => s | _ => ""))) else o) "password" = false := by
    intro o ho
    by_cases hav : isFalsy (jGet o "avatar") = true
    · rw [if_pos hav, jHasKey_jSet_ne _ _ _ _ (by decide)]
      exact ho
    · rw [if_neg hav]
      exact ho
  have h2 := h1 (transformDocuments d) h0
  by_cases hwt : wt = true
  · rw [if_pos hwt, jHasKey_jSet_ne _ _ _ _ (by decide)]
    exact h2
  · rw [if_neg hwt]
    exact h2

theorem td_get_id (a : Account) :
    jGet (transformDocuments (accountToDoc a)) "_id" = some (.num a._id) := rfl

theorem td_get_username (a : Account) :
    jGet (transformDocuments (accountToDoc a)) "username" = some (.str a.username) := rfl

theorem jwtVerify_ok_of_unexpired (t : Jwt) (secret : String) (now : Int)
    (hk : t.key = secret) (hexp : ∀ e, t.payload.exp = some e → now < e) :
    jwtVerify t secret now = .ok t.payload := by
  unfold jwtVerify
  rw [if_pos hk]
  cases hex : t.payload.exp with
  | none => rfl
  | some e =>
    have hlt := hexp e hex
    show (if e ≤ now then Except.error JwtError.tokenExpired else Except.ok t.payload)
      = Except.ok t.payload
    rw [if_neg (by omega)]

theorem valid_username_ne_empty (e : Candidate) (hv : validateEntity e = true) :
    e.username ≠ "" := by
  intro h
  unfold validateEntity at hv
  rw [h] at hv
  simp at hv

theorem valid_email_ne_empty (e : Candidate) (hv : validateEntity e = true) :
    e.email ≠ "" := by
  intro h
  unfold validateEntity at hv
  rw [h] at hv
  rw [show isEmailShape "" = false from rfl] at hv
  simp at hv

theorem create_ok_elim (st : Store) (e : Candidate) (mt : Option Jwt) (now : Int)
    (secret : String) (w : Wrapped) (st2 : Store)
    (h : create st e mt now secret = (.ok w, st2)) :
    w = transformEntity (some (transformDocuments (accountToDoc (createdAccount st e now))))
          true mt now secret
    ∧ st2 = ⟨st.accounts ++ [createdAccount st e now], st.nextId + 1⟩ := by
  unfold create at h
  split_ifs at h with h1 h2 h3
  all_goals simp only [Prod.mk.injEq, Except.ok.injEq] at h
  all_goals first
    | exact absurd h.1 (by simp)
    | exact ⟨h.1.symm, h.2.symm⟩

theorem transformEntity_token (u : JObj) (mt : Option Jwt) (now : Int) (secret : String) :
    ∃ u1 : JObj, jGet u1 "_id" = jGet u "_id"
      ∧ jGet u1 "username" = jGet u "username"
      ∧ transformEntity (some u) true mt now secret
          = ⟨some (jSet u1 "token" (.tok (mt.getD (generateJWT u1 now secret))))⟩ := by
  simp only [transformEntity]
  by_cases hav : isFalsy (jGet u "avatar") = true
  · refine ⟨jSet u "avatar" (.str (gravatarUrl
      (match jGet u "email" with | some (.str s) => s | _ => ""))),
      jGet_jSet_ne _ _ _ _ (by decide), jGet_jSet_ne _ _ _ _ (by decide), ?_⟩
    rw [if_pos hav, if_pos trivial]
  · refine ⟨u, rfl, rfl, ?_⟩
    rw [if_neg hav, if_pos trivial]

/-! Claim theorems. -/

/-- C1, corrected.  The register, login, me, updateMyself and getbygitID
return paths all pass the stored record through the settings.fields
projection, so the value they return never contains a password property;
a structurally valid candidate with unique username and email registers
successfully.  The resolveToken return path, by contrast, returns the
stored record raw (see the counterexample), so the claim as stated, which
includes resolveToken, fails. -/
theorem c1_password_never_returned :
    (∀ st e mt now secret w, (create st e mt now secret).1 = .ok w → pwFreeW w)
    ∧ (∀ st email pw mt now secret w, login st email pw mt now secret = .ok w → pwFreeW w)
    ∧ (∀ st i mt now secret w, me st i mt now secret = .ok w → pwFreeW w)
    ∧ (∀ st i p mt now secret w, (updateMyself st i p mt now secret).1 = .ok w → pwFreeW w)
    ∧ (∀ st g d, getbygitID st g = .ok d → jHasKey d "password" = false)
    ∧ (∀ st e mt now secret, validateEntity e = true →
        findOneByUsername st e.username = none → findOneByEmail st e.email = none →
        ∃ w st2, create st e mt now secret = (.ok w, st2)) := by
  refine ⟨?_, ?_, ?_, ?_, ?_, ?_⟩
  · intro st e mt now secret w h
    unfold create at h
    split_ifs at h with h1 h2 h3
    all_goals simp at h
    rw [← h]
    exact pwFree_transform _ _ _ _ _
  · intro st email pw mt now secret w h
    unfold login at h
    split at h
    all_goals try split_ifs at h with hcmp
    all_goals simp at h
    rw [← h]
    exact pwFree_transform _ _ _ _ _
  · intro st i mt now secret w h
    unfold me at h
    split at h
    all_goals simp at h
    rw [← h]
    exact pwFree_transform _ _ _ _ _
  · intro st i p mt now secret w h
    unfold updateMyself at h
    split_ifs at h with h1 h2
    all_goals try split at h
    all_goals simp at h
    · rw [← h]
      exact pwFree_transform _ _ _ _ _
    · rw [← h]
      intro u hu
      simp [transformEntity] at hu
  · intro st g d h
    unfold getbygitID at h
    split at h
    all_goals simp at h
    rw [← h]
    exact transformDocuments_no_password _
  · intro st e mt now secret hv hfu hfe
    unfold create
    rw [if_neg (by simp [hv])]
    rw [if_neg (by simp [hfu])]
    rw [if_neg (by simp [hfe])]
    exact ⟨_, _, rfl⟩

/-- C1 witness: a concrete fresh registration succeeds and its profile
has no password property. -/
theorem c1_witness :
    ∃ w st2, create (Store.mk [] 1) freshCand none 0 "s" = (.ok w, st2) ∧ pwFreeW w := by
  obtain ⟨w, st2, hw⟩ := c1_password_never_returned.2.2.2.2.2
    (Store.mk [] 1) freshCand none 0 "s" (by decide) rfl rfl
  exact ⟨w, st2, hw, c1_password_never_returned.1 (Store.mk [] 1) freshCand none 0 "s" w
    (by rw [hw])⟩

/-- C1 counterexample: resolveToken on a valid token for the sample
account returns the raw stored record, and that record does contain the
password property, refuting the claim for the resolveToken operation. -/
theorem c1_counterexample :
    (resolveToken demoStore "s" 0 demoToken).1 = .ok (some (accountToDoc demoAcc))
    ∧ jHasKey (accountToDoc demoAcc) "password" = true := ⟨rfl, rfl⟩

/-- C2, corrected.  When the action cache holds no live entry for the
token string, an expired token (signed with the service secret, embedded
expiry not in the future) always fails resolution with the expired-token
rejection.  A live cache hit, however, short-circuits the handler
entirely, so an entry stored by an earlier successful resolution is
returned as-is even after the token has expired (see the
counterexample); the staleness window is bounded by the one-hour cache
ttl. -/
theorem c2_expired_token_fails_on_cache_miss (cache : List CacheEntry) (st : Store)
    (secret : String) (now : Int) (t : Jwt) (e : Int)
    (hk : t.key = secret) (hexp : t.payload.exp = some e) (hpast : e ≤ now)
    (hmiss : cacheLookup cache t now = none) :
    (cachedResolveToken cache st secret now t).1 = .error .tokenExpired := by
  have hv : jwtVerify t secret now = .error .tokenExpired := by
    unfold jwtVerify
    rw [if_pos hk, hexp]
    show (if e ≤ now then Except.error JwtError.tokenExpired else Except.ok t.payload)
      = Except.error JwtError.tokenExpired
    rw [if_pos hpast]
  have hres : resolveToken st secret now t = (.error .tokenExpired, []) := by
    unfold resolveToken
    rw [hv]
  unfold cachedResolveToken
  rw [hmiss, hres]

/-- C2 witness: the expired sample token fails against an empty cache. -/
theorem c2_witness :
    (cachedResolveToken [] demoStore "s" 200 shortToken).1 = .error .tokenExpired :=
  c2_expired_token_fails_on_cache_miss [] demoStore "s" 200 shortToken 100
    rfl rfl (by decide) rfl

/-- C2 counterexample: at time 200 the expiry 100 of the token lies in
the past and direct verification rejects it as expired, yet the cache
entry stored at time 50 is still live, so resolution returns the account
instead of the expired-token failure. -/
theorem c2_counterexample :
    (cachedResolveToken [shortEntry] demoStore "s" 200 shortToken).1
      = .ok (some (accountToDoc demoAcc))
    ∧ isExpiredErr (cachedResolveToken [shortEntry] demoStore "s" 200 shortToken).1 = false
    ∧ shortToken.payload.exp = some 100
    ∧ jwtVerify shortToken "s" 200 = .error .tokenExpired := ⟨rfl, rfl, rfl, rfl⟩

/-- C3, corrected.  For a token that passes signature and expiry checks
and embeds a truthy id: when no account has that id the handler returns
an empty result (null, no rejection of any kind) rather than a not-found
failure; when the account exists the raw record is returned and, through
the action cache, stored under the token string at the current time, the
entry being served for the one-hour ttl. -/
theorem c3_resolution_lookup_behaviour (st : Store) (secret : String) (now : Int)
    (t : Jwt) (i : Int)
    (hk : t.key = secret) (hexp : ∀ e, t.payload.exp = some e → now < e)
    (hid : t.payload.id = some i) (hi : i ≠ 0) :
    ((getById st i = none → resolveToken st secret now t = (.ok none, [i]))
     ∧ (∀ a, getById st i = some a →
         resolveToken st secret now t = (.ok (some (accountToDoc a)), [i])))
    ∧ (∀ cache a, cacheLookup cache t now = none → getById st i = some a →
        cachedResolveToken cache st secret now t
          = (.ok (some (accountToDoc a)), ⟨t, some (accountToDoc a), now⟩ :: cache))
    ∧ cacheTTL = 60 * 60
    ∧ (∀ cache a now2, now2 < now + cacheTTL →
        cacheLookup (⟨t, some (accountToDoc a), now⟩ :: cache) t now2
          = some (accountToDoc a)) := by
  have hv := jwtVerify_ok_of_unexpired t secret now hk hexp
  have hbase : resolveToken st secret now t
      = (.ok ((getById st i).map accountToDoc), [i]) := by
    unfold resolveToken
    rw [hv]
    show (match t.payload.id with
      | some i => if i = 0 then (Except.ok none, ([] : List Int))
                  else (Except.ok ((getById st i).map accountToDoc), [i])
      | none => (Except.ok none, [])) = _
    rw [hid]
    show (if i = 0 then (Except.ok none, ([] : List Int))
          else (Except.ok ((getById st i).map accountToDoc), [i])) = _
    rw [if_neg hi]
  refine ⟨⟨?_, ?_⟩, ?_, rfl, ?_⟩
  · intro hnone
    rw [hbase, hnone]
    rfl
  · intro a ha
    rw [hbase, ha]
    rfl
  · intro cache a hcm ha
    unfold cachedResolveToken
    rw [hcm, hbase, ha]
    rfl
  · intro cache a now2 hlive
    unfold cacheLookup
    rw [List.find?_cons_of_pos]
    simp [cacheTTL] at hlive ⊢
    omega

/-- C3 witness: the ghost token resolves to an empty result on the empty
store; the sample token resolves to the raw sample record and populates
the cache with an entry stored at the call time. -/
theorem c3_witness :
    resolveToken (Store.mk [] 1) "s" 0 ghostToken = (.ok none, [5])
    ∧ cachedResolveToken [] demoStore "s" 0 demoToken
        = (.ok (some (accountToDoc demoAcc)),
           [⟨demoToken, some (accountToDoc demoAcc), 0⟩]) := by
  constructor
  · exact (c3_resolution_lookup_behaviour (Store.mk [] 1) "s" 0 ghostToken 5 rfl
      (by intro e he; simp [ghostToken] at he; omega) rfl (by decide)).1.1 rfl
  · exact (c3_resolution_lookup_behaviour demoStore "s" 0 demoToken 1 rfl
      (by intro e he; simp [demoToken] at he; omega) rfl (by decide)).2.1 [] demoAcc rfl rfl

/-- C3 counterexample: a verified unexpired token whose embedded id 5
matches no account yields a successful empty result, not a rejection, so
the claim that a not-found failure is raised is false. -/
theorem c3_counterexample :
    (resolveToken (Store.mk [] 1) "s" 0 ghostToken).1 = .ok none
    ∧ isJwtErr (resolveToken (Store.mk [] 1) "s" 0 ghostToken).1 = false
    ∧ jwtVerify ghostToken "s" 0 = .ok ghostToken.payload
    ∧ getById (Store.mk [] 1) 5 = none := ⟨rfl, rfl, rfl, rfl⟩

/-- C10, confirmed.  A token that passes signature and expiry checks but
whose payload carries no id makes the handler skip the store lookup
entirely and return an empty result: no account, no rejection, no store
operation. -/
theorem c10_no_id_no_lookup_empty_result (st : Store) (secret : String) (now : Int)
    (t : Jwt)
    (hk : t.key = secret) (hexp : ∀ e, t.payload.exp = some e → now < e)
    (hid : t.payload.id = none) :
    resolveToken st secret now t = (.ok none, []) := by
  have hv := jwtVerify_ok_of_unexpired t secret now hk hexp
  unfold resolveToken
  rw [hv]
  show (match t.payload.id with
    | some i => if i = 0 then (Except.ok none, ([] : List Int))
                else (Except.ok ((getById st i).map accountToDoc), [i])
    | none => (Except.ok none, [])) = _
  rw [hid]

/-- C10 witness: the concrete id-less token yields the empty result with
no store lookup on the sample store. -/
theorem c10_witness : resolveToken demoStore "s" 0 noIdToken = (.ok none, []) :=
  c10_no_id_no_lookup_empty_result demoStore "s" 0 noIdToken rfl
    (by intro e he; simp [noIdToken] at he; omega) rfl

/-- C6, code bug.  The try block of deductWallet returns the store
promise without awaiting it, so the catch clause that would re-signal an
internal error can never run: with the store unreachable the caller
receives the raw rejection, not the thrown client error; and a missing
id is not even a store-level failure, the update resolves null
successfully.  In neither failing situation does the caller see the
internal error the claim requires. -/
theorem c6_store_failure_reaches_caller_raw :
    deductWallet false demoStore 1 5
      = (.error (.raw "store unreachable"), [StoreOp.updateInc 1 "wallet" (-5)])
    ∧ isThrownMcError (deductWallet false demoStore 1 5).1 = false
    ∧ (deductWallet true demoStore 42 5).1 = .ok (demoStore, none)
    ∧ isThrownMcError (deductWallet true demoStore 42 5).1 = false := ⟨rfl, rfl, rfl, rfl⟩

/-- C7, confirmed.  On a reachable store holding the addressed record,
the deductWallet call issues exactly one store operation, the atomic
increment of the wallet field by the signed delta (minus the payload
cost), with no preceding read; the resulting store differs from the old
one only in the wallet field of the addressed record, every other field
and every other record being untouched, and the updated record is
acknowledged back. -/
theorem c7_wallet_single_atomic_increment (st : Store) (payloadId cost : Int) (a : Account)
    (ha : getById st payloadId = some a) :
    (deductWallet true st payloadId cost).2 = [StoreOp.updateInc payloadId "wallet" (-cost)]
    ∧ (deductWallet true st payloadId cost).1
        = .ok (⟨List.map (fun b => if b._id = payloadId
                  then { b with wallet := b.wallet + (-cost) } else b) st.accounts,
                st.nextId⟩,
               some { a with wallet := a.wallet + (-cost) }) := by
  have had : adapterUpdateByIdInc true st payloadId (-cost)
      = ⟨.ok (⟨List.map (fun b => if b._id = payloadId
                  then { b with wallet := b.wallet + (-cost) } else b) st.accounts,
              st.nextId⟩,
             some { a with wallet := a.wallet + (-cost) })⟩ := by
    unfold adapterUpdateByIdInc
    rw [if_pos rfl, ha]
  unfold deductWallet deductWalletTry
  rw [had]
  exact ⟨rfl, rfl⟩

/-- C7 witness: on the sample store, deducting 5 from account 1 issues
the single increment operation and lands the wallet at minus five with
all other fields intact. -/
theorem c7_witness :
    (deductWallet true demoStore 1 5).2 = [StoreOp.updateInc 1 "wallet" (-5)]
    ∧ (deductWallet true demoStore 1 5).1
        = .ok (⟨[{ demoAcc with wallet := -5 }], 2⟩, some { demoAcc with wallet := -5 }) := by
  have h := c7_wallet_single_atomic_increment demoStore 1 5 demoAcc rfl
  refine ⟨h.1, ?_⟩
  rw [h.2]
  rfl

/-- C4, corrected.  A structurally valid candidate whose username belongs
to an existing account fails with the username conflict error and leaves
the store unchanged; when the username does not collide, a candidate
whose email belongs to an existing account fails with the email conflict
error and leaves the store unchanged; and after a successful
registration, a second valid candidate with the same username (any
email) fails with the username conflict error.  The username check runs
first, so on a candidate colliding on both fields the error details the
username, not the email (see the counterexample), which is the one
deviation from the claim as stated. -/
theorem c4_register_uniqueness_conflicts (st : Store) (e : Candidate) (mt : Option Jwt)
    (now : Int) (secret : String) (hv : validateEntity e = true) :
    ((findOneByUsername st e.username).isSome = true →
       create st e mt now secret = (.error usernameExistsError, st))
    ∧ ((findOneByUsername st e.username).isSome = false →
       (findOneByEmail st e.email).isSome = true →
       create st e mt now secret = (.error emailExistsError, st))
    ∧ (∀ e2 w st2, create st e mt now secret = (.ok w, st2) →
        validateEntity e2 = true → e2.username = e.username →
        create st2 e2 mt now secret = (.error usernameExistsError, st2)) := by
  have huniv : ∀ (st' : Store) (e' : Candidate), validateEntity e' = true →
      (findOneByUsername st' e'.username).isSome = true →
      create st' e' mt now secret = (.error usernameExistsError, st') := by
    intro st' e' hv' hs'
    unfold create
    rw [if_neg (by simp [hv'])]
    rw [if_pos ⟨valid_username_ne_empty e' hv', hs'⟩]
  refine ⟨fun hs => huniv st e hv hs, ?_, ?_⟩
  · intro hns he
    unfold create
    rw [if_neg (by simp [hv])]
    rw [if_neg (by simp [hns])]
    rw [if_pos ⟨valid_email_ne_empty e hv, he⟩]
  · intro e2 w st2 hok hv2 hu2
    obtain ⟨-, hst2⟩ := create_ok_elim st e mt now secret w st2 hok
    have hs2 : (findOneByUsername st2 e2.username).isSome = true := by
      rw [hst2]
      unfold findOneByUsername
      simp only [List.find?_isSome]
      refine ⟨createdAccount st e now, ?_, ?_⟩
      · simp
      · simp [createdAccount, hu2]
    exact huniv st2 e2 hv2 hs2

/-- C4 witness: registering a valid candidate with the taken username
alice fails with the username conflict and inserts nothing; and after a
successful registration of bob, a second valid candidate named bob with
a different email fails with the username conflict. -/
theorem c4_witness :
    create demoStore usernameClashCand none 0 "s" = (.error usernameExistsError, demoStore)
    ∧ create ⟨demoStore.accounts ++ [createdAccount demoStore freshCand 0], 3⟩
        (Candidate.mk "bob" "g7" "secret7" "c@z.com" none none) none 0 "s"
        = (.error usernameExistsError,
           ⟨demoStore.accounts ++ [createdAccount demoStore freshCand 0], 3⟩) := by
  constructor
  · exact (c4_register_uniqueness_conflicts demoStore usernameClashCand none 0 "s"
      (by decide)).1 rfl
  · exact (c4_register_uniqueness_conflicts demoStore freshCand none 0 "s"
      (by decide)).2.2 (Candidate.mk "bob" "g7" "secret7" "c@z.com" none none) _ _ rfl
      (by decide) rfl

/-- C4 counterexample: a valid candidate whose email equals the email of
the stored account (and whose username also collides) fails with the
conflict error detailing the username field, not the email field the
claim promises for every email-colliding candidate. -/
theorem c4_counterexample :
    bothClashCand.email = demoAcc.email
    ∧ demoAcc ∈ demoStore.accounts
    ∧ validateEntity bothClashCand = true
    ∧ create demoStore bothClashCand none 0 "s" = (.error usernameExistsError, demoStore)
    ∧ usernameExistsError.data = [⟨"username", "is exist"⟩]
    ∧ (decide (usernameExistsError.data = [FieldDetail.mk "email" "is exist"])) = false := by
  refine ⟨rfl, by simp [demoStore], rfl, rfl, rfl, rfl⟩

/-- C5, corrected.  When the provider fetch succeeds but the delegated
create fails, with a uniqueness conflict or anything else, the catch-all
of registerwithtoken replaces the error with the generic bad-details
client error: the conflict error does not propagate to the caller. -/
theorem c5_conflict_replaced_by_bad_details (data : ProviderProfile) (st : Store)
    (password email : String) (mt : Option Jwt) (now : Int) (secret : String) (er : MCError)
    (h : (create st (mapProviderProfile data password email) mt now secret).1 = .error er) :
    (registerwithtoken (.ok data) st password email mt now secret).1 = .error badDetailsError
    ∧ badDetailsError.message = "bad details!" := by
  refine ⟨?_, rfl⟩
  rcases hc : create st (mapProviderProfile data password email) mt now secret with ⟨r, st2⟩
  simp only [registerwithtoken]
  rw [hc]
  cases r with
  | ok a =>
    rw [hc] at h
    simp at h
  | error e2 => rfl

/-- C5 witness: with the provider resolving the alice profile against the
sample store, the delegated create fails with the username conflict and
the caller receives the generic bad-details error instead. -/
theorem c5_witness :
    (registerwithtoken (.ok clashProfile) demoStore "secret1" "b@y.com" none 0 "s").1
      = .error badDetailsError
    ∧ badDetailsError.message = "bad details!" :=
  c5_conflict_replaced_by_bad_details clashProfile demoStore "secret1" "b@y.com" none 0 "s"
    usernameExistsError rfl

/-- C5 counterexample: at a concrete input the delegated create fails
with the username conflict error, yet registerwithtoken surfaces the
distinct bad-details error, so the conflict is not propagated
unchanged. -/
theorem c5_counterexample :
    (create demoStore (mapProviderProfile clashProfile "secret1" "b@y.com") none 0 "s").1
      = .error usernameExistsError
    ∧ (registerwithtoken (.ok clashProfile) demoStore "secret1" "b@y.com" none 0 "s").1
      = .error badDetailsError
    ∧ (decide (badDetailsError = usernameExistsError)) = false := ⟨rfl, rfl, rfl⟩

/-- C8, corrected.  A successful registration attaches a token to the
returned profile, but the token is freshly generated for the new account
(signed with the service secret, carrying the new id, the username and a
sixty-day expiry) only when the call carries no meta token; when the
caller supplied a session token with the request, that token is attached
verbatim instead (see the counterexample). -/
theorem c8_register_token_attachment (st : Store) (e : Candidate) (now : Int)
    (secret : String) :
    (∀ t w st2, create st e (some t) now secret = (.ok w, st2) →
       ∃ u, w.user = some u ∧ jGet u "token" = some (.tok t))
    ∧ (∀ w st2, create st e none now secret = (.ok w, st2) →
       ∃ u tk, w.user = some u ∧ jGet u "token" = some (.tok tk)
         ∧ tk.key = secret ∧ tk.payload.exp = some (now + 60 * 86400)
         ∧ tk.payload.id = some st.nextId
         ∧ tk.payload.username = some e.username) := by
  constructor
  · intro t w st2 h
    obtain ⟨hw, -⟩ := create_ok_elim st e (some t) now secret w st2 h
    obtain ⟨u1, -, -, hT⟩ := transformEntity_token
      (transformDocuments (accountToDoc (createdAccount st e now))) (some t) now secret
    rw [hT] at hw
    subst hw
    exact ⟨_, rfl, jGet_jSet_self _ _ _⟩
  · intro w st2 h
    obtain ⟨hw, -⟩ := create_ok_elim st e none now secret w st2 h
    obtain ⟨u1, hid1, hun1, hT⟩ := transformEntity_token
      (transformDocuments (accountToDoc (createdAccount st e now))) none now secret
    rw [hT] at hw
    subst hw
    refine ⟨_, generateJWT u1 now secret, rfl, jGet_jSet_self _ _ _, rfl, rfl, ?_, ?_⟩
    · simp [generateJWT, hid1, td_get_id, createdAccount]
    · simp [generateJWT, hun1, td_get_username, createdAccount]

/-- C8 witness: concrete instances of both branches, with a supplied
session token attached verbatim and, absent one, a minted token for the
new account. -/
theorem c8_witness :
    (∃ u, (transformEntity (some (transformDocuments (accountToDoc
        (createdAccount (Store.mk [] 1) freshCand 0)))) true (some sessionToken) 0 "s").user
          = some u
      ∧ jGet u "token" = some (.tok sessionToken))
    ∧ (∃ u tk, (transformEntity (some (transformDocuments (accountToDoc
        (createdAccount (Store.mk [] 1) freshCand 0)))) true none 0 "s").user = some u
      ∧ jGet u "token" = some (.tok tk)
      ∧ tk.key = "s" ∧ tk.payload.exp = some (0 + 60 * 86400)
      ∧ tk.payload.id = some (Store.mk [] 1).nextId
      ∧ tk.payload.username = some freshCand.username) := by
  constructor
  · exact (c8_register_token_attachment (Store.mk [] 1) freshCand 0 "s").1
      sessionToken _ _ rfl
  · exact (c8_register_token_attachment (Store.mk [] 1) freshCand 0 "s").2 _ _ rfl

/-- C8 counterexample: registering while carrying a session token in the
call meta attaches that token verbatim: its expiry 42 is not the
sixty-day expiry a token minted during the call would carry, its subject
id 999 is not the id 1 of the newly created account, and it is not even
signed with the service secret, so the returned token is not freshly
generated for the new account. -/
theorem c8_counterexample :
    createdToken (Store.mk [] 1) freshCand (some sessionToken) 0 "s" = some sessionToken
    ∧ sessionToken.payload.exp = some 42
    ∧ (decide ((42 : Int) = 0 + 60 * 86400)) = false
    ∧ sessionToken.payload.id = some 999
    ∧ (createdAccount (Store.mk [] 1) freshCand 0)._id = 1
    ∧ (decide ((999 : Int) = 1)) = false
    ∧ sessionToken.key = "other"
    ∧ (decide (sessionToken.key = "s")) = false := ⟨rfl, rfl, rfl, rfl, rfl, rfl, rfl, rfl⟩

/-- C9, corrected.  The two login failure paths raise the same error
kind: client errors with the same code 422 and the same field detail
(email, is not found).  Their top-level messages differ, however (email
or password is invalid, versus wrong password), so the two causes are
distinguishable by message, contrary to the claim. -/
theorem c9_login_failure_distinguishable (st : Store) (email pw : String) (mt : Option Jwt)
    (now : Int) (secret : String) :
    (findOneByEmail st email = none → login st email pw mt now secret = .error notFoundLoginError)
    ∧ (∀ u, findOneByEmail st email = some u → bcryptCompare pw u.password = false →
        login st email pw mt now secret = .error wrongPasswordError)
    ∧ notFoundLoginError.code = wrongPasswordError.code
    ∧ notFoundLoginError.data = wrongPasswordError.data
    ∧ (decide (notFoundLoginError.message = wrongPasswordError.message)) = false := by
  refine ⟨?_, ?_, rfl, rfl, rfl⟩
  · intro h
    unfold login
    rw [h]
  · intro u hu hc
    unfold login
    rw [hu]
    show (if bcryptCompare pw u.password = true then _ else _) = _
    rw [if_neg (by simp [hc])]

/-- C9 witness: an unknown email and a wrong password against the sample
store produce the two concrete errors. -/
theorem c9_witness :
    login demoStore "b@y.com" "whatever" none 0 "s" = .error notFoundLoginError
    ∧ login demoStore "a@x.com" "badpass" none 0 "s" = .error wrongPasswordError := by
  constructor
  · exact (c9_login_failure_distinguishable demoStore "b@y.com" "whatever" none 0 "s").1 rfl
  · exact (c9_login_failure_distinguishable demoStore "a@x.com" "badpass" none 0 "s").2.1
      demoAcc rfl rfl

/-- C9 counterexample: at concrete inputs the unknown-email failure and
the wrong-password failure carry different top-level messages, so the
two causes are not indistinguishable as the claim states. -/
theorem c9_counterexample :
    login demoStore "b@y.com" "pw" none 0 "s" = .error notFoundLoginError
    ∧ login demoStore "a@x.com" "badpass" none 0 "s" = .error wrongPasswordError
    ∧ notFoundLoginError.message = "Email or password is invalid!"
    ∧ wrongPasswordError.message = "Wrong password!"
    ∧ (decide (notFoundLoginError.message = wrongPasswordError.message)) = false :=
  ⟨rfl, rfl, rfl, rfl, rfl⟩
